import Mathlib

/-!
Shallow embedding of the VideoWise backend (src/backend/app.py and
src/backend/video_processor.py) for checking the specification claims.

External ML models and LLM providers are modelled by their outcomes:
an `Option` value where `none` means the call raised (or the client is
absent) and `some s` means it returned `s`. Machine state touched by the
job worker (live cache, durable row, the media file) is an explicit
record. Python strings are Lean `String`s; the Python string operations
used by the code (`in`, `split(sep, 1)[-1]`, `split(sep)[0]`, `split()`,
`strip()`, slicing) are embedded below as executable functions on the
character list.
-/

namespace VideoWise

/-- Finds the first occurrence of `sep` in `s`: returns the part before and
the part after it, or `none` when `sep` does not occur (Python `sep in s`
and `s.split(sep, ...)`). -/
def splitFirstAux (sep : List Char) : List Char → Option (List Char × List Char)
  | [] => none
  | c :: cs =>
    if sep.isPrefixOf (c :: cs) then some ([], (c :: cs).drop sep.length)
    else
      match splitFirstAux sep cs with
      | some (pre, post) => some (c :: pre, post)
      | none => none

/-- Python `sep in s`. -/
def containsSub (sep s : String) : Bool :=
  (splitFirstAux sep.toList s.toList).isSome

/-- Python `s.split(sep, 1)[-1]`: the part after the first occurrence of
`sep`, or `s` itself when `sep` does not occur. -/
def afterFirst (sep s : String) : String :=
  match splitFirstAux sep.toList s.toList with
  | some (_, post) => post.asString
  | none => s

/-- Python `s.split(sep)[0]`: the part before the first occurrence of
`sep`, or `s` itself when `sep` does not occur. -/
def beforeFirst (sep s : String) : String :=
  match splitFirstAux sep.toList s.toList with
  | some (pre, _) => pre.asString
  | none => s

/-- Python `s.split()` on the character list: splits on runs of whitespace,
discarding empty pieces. `cur` is the (reversed) word being collected. -/
def pyWordsAux (cur : List Char) : List Char → List (List Char)
  | [] => if cur = [] then [] else [cur.reverse]
  | c :: cs =>
    if c.isWhitespace then
      if cur = [] then pyWordsAux [] cs else cur.reverse :: pyWordsAux [] cs
    else pyWordsAux (c :: cur) cs

/-- Python `s.split()` (no argument): the whitespace-separated words of `s`. -/
def pySplit (s : String) : List String :=
  (pyWordsAux [] s.toList).map List.asString

/-- Python `s.strip()`: removes leading and trailing whitespace. -/
def pyStrip (s : String) : String :=
  ((s.toList.dropWhile Char.isWhitespace).reverse.dropWhile Char.isWhitespace).reverse.asString

/-- Decimal digit character (Python rendering of one digit). -/
def digitChar (d : Nat) : Char := Char.ofNat (48 + d)

/-- Decimal rendering with explicit fuel (the fuel never runs out when it
starts at `n + 1`). -/
def natToDigitsCore : Nat → Nat → List Char
  | 0, _ => []
  | fuel + 1, n =>
    if n < 10 then [digitChar n]
    else natToDigitsCore fuel (n / 10) ++ [digitChar (n % 10)]

/-- Decimal rendering of a natural number, as Python `str(n)` produces. -/
def natToDigits (n : Nat) : List Char := natToDigitsCore (n + 1) n

/-- Python `str(n)` for a natural number. -/
def natRepr (n : Nat) : String := (natToDigits n).asString

/-! ## Media extractor (`VideoProcessor.extract_keyframes`, `extract_audio`) -/

/-- One OCR detection as returned by `easyocr.Reader.readtext`: the
detected text and its confidence (`text[1]` and `text[2]` in the source;
the bounding box is unused). Confidence is embedded as a rational. -/
structure OcrDet where
  text : String
  conf : ℚ
deriving DecidableEq, Repr

/-- One decodable frame of the video, carrying the outcomes of the
external model calls made on it: `captionResult` is the BLIP caption
(`none` means the call raised), `ocrResult` the EasyOCR detections
(`none` means the OCR call raised). -/
structure Frame where
  captionResult : Option String
  ocrResult : Option (List OcrDet)
deriving DecidableEq, Repr

/-- Outcome of transcribing with Whisper: `none` means the call raised,
`some t` the raw decoded transcription (before `.strip()`). -/
structure AudioEnv where
  hasTrack : Bool
  extractRaises : Bool
  samples : List ℚ
  whisper : Option String
deriving DecidableEq, Repr

/-- A video file as `cv2.VideoCapture` sees it: whether it opens, and its
decodable frames (in order). -/
structure Video where
  opened : Bool
  frames : List Frame
deriving DecidableEq, Repr

/-- The evenly spaced frame positions chosen by `extract_keyframes`:
`list(range(total_frames))` when `total_frames < num_frames`, else
`[int(i * total_frames / num_frames) for i in range(num_frames)]`. -/
def frameIndices (total_frames num_frames : Nat) : List Nat :=
  if total_frames < num_frames then List.range total_frames
  else (List.range num_frames).map (fun i => i * total_frames / num_frames)

/-- `VideoProcessor.extract_keyframes`: raises `ValueError` when the file
cannot be opened; otherwise reads the frames at the chosen positions
(a read at a valid position succeeds, an out-of-range read is skipped,
mirroring the `if ret:` guard). -/
def extract_keyframes (v : Video) (num_frames : Nat) : Except String (List Frame) :=
  if !v.opened then Except.error "Could not open video"
  else Except.ok ((frameIndices v.frames.length num_frames).filterMap (fun i => v.frames[i]?))

/-- `VideoProcessor.extract_audio`: returns `None` (absent) when the clip
has no audio track and also when any step of the extraction raises. -/
def extract_audio (a : AudioEnv) : Option (List ℚ) :=
  if a.extractRaises then none
  else if !a.hasTrack then none
  else some a.samples

/-! ## Content analyzers (`transcribe_audio`, `caption_frame`,
`extract_text_from_frame`, `analyze_visual_content`) -/

/-- `VideoProcessor.transcribe_audio`: placeholder on absent or empty
audio, placeholder on a raising Whisper call, placeholder on a blank
transcription, else the stripped transcription. -/
def transcribe_audio (audio : Option (List ℚ)) (whisper : Option String) : String :=
  match audio with
  | none => "No audio content detected."
  | some samples =>
    if samples.length = 0 then "No audio content detected."
    else
      match whisper with
      | none => "Audio transcription failed."
      | some t => if pyStrip t ≠ "" then pyStrip t else "No speech detected in audio."

/-- `VideoProcessor.caption_frame`: the BLIP caption, degrading to a fixed
placeholder when the model call raises. -/
def caption_frame (f : Frame) : String :=
  match f.captionResult with
  | some c => c
  | none => "Unable to describe this frame."

/-- `VideoProcessor.extract_text_from_frame`: keeps the text of every
detection with confidence strictly above 0.5; empty list when the OCR
call raises. -/
def extract_text_from_frame (f : Frame) : List String :=
  match f.ocrResult with
  | some dets => (dets.filter (fun d => d.conf > 1/2)).map (fun d => d.text)
  | none => []

/-- The caption record `analyze_visual_content` builds for frame `i`
(0-based): `f"Frame {i+1}: {caption}"`, with
`" | On-screen text: " + ", ".join(ocr_texts)` appended when the frame
had OCR detections. -/
def frameCaptionEntry (i : Nat) (f : Frame) : String :=
  let base := "Frame " ++ natRepr (i + 1) ++ ": " ++ caption_frame f
  let ocr_texts := extract_text_from_frame f
  if ocr_texts ≠ [] then base ++ " | On-screen text: " ++ String.intercalate ", " ocr_texts
  else base

/-- Return value of `VideoProcessor.analyze_visual_content`. -/
structure VisualAnalysis where
  frame_captions : List String
  ocr_texts : List String
  visual_summary : String
deriving DecidableEq, Repr

/-- `VideoProcessor.analyze_visual_content`: per-frame caption records
(1-based labels), the concatenation of all per-frame OCR texts, and the
newline join of the caption records. -/
def analyze_visual_content (frames : List Frame) : VisualAnalysis :=
  let frame_captions := frames.enum.map (fun p => frameCaptionEntry p.1 p.2)
  { frame_captions := frame_captions
    ocr_texts := (frames.map extract_text_from_frame).flatten
    visual_summary := String.intercalate "\n" frame_captions }

/-! ## Summary composer (`VideoProcessor.generate_summary`) -/

/-- The two LLM clients: the outer `Option` is client presence
(`self.groq_client` / `self.gemini_model` being non-`None`), the inner
`Option` is the outcome of a call on this job's prompt (`none` = the call
raised, `some s` = it returned `s`, already `.strip()`ped as the source
does at the call site). -/
structure LLMEnv where
  groq : Option (Option String)
  gemini : Option (Option String)
deriving DecidableEq, Repr

/-- The Groq branch's effect on `summary`: `None` unless the client is
present and the call returns. -/
def groqOutcome (llm : LLMEnv) : Option String := llm.groq.bind id

/-- The Gemini branch's effect on `summary`. -/
def geminiOutcome (llm : LLMEnv) : Option String := llm.gemini.bind id

/-- The scene descriptions `generate_summary` recovers from the caption
records: for each caption containing `": "`, the part after the first
`": "`, with any `" | On-screen text:"` suffix removed, stripped. -/
def visualScenes (frame_captions : List String) : List String :=
  frame_captions.filterMap (fun caption =>
    if containsSub ": " caption then
      some (pyStrip (beforeFirst " | On-screen text:" (afterFirst ": " caption)))
    else none)

/-- The deterministic fallback summary built when no LLM produced text:
`"This video contains: "` plus the first 200 characters of the
transcription (or `"visual content"` when it is empty), plus the first
three scene descriptions when any exist. -/
def fallbackSummary (audio_transcription : String) (visual_scenes : List String) : String :=
  let base := "This video contains: " ++
    (if audio_transcription ≠ "" then audio_transcription.take 200 else "visual content") ++ ". "
  if visual_scenes ≠ [] then
    base ++ "Key scenes include: " ++ String.intercalate ", " (visual_scenes.take 3) ++ "."
  else base

/-- The provider chain of `generate_summary`: `summary` starts as `None`,
the Groq result is taken if the client exists and the call returns, the
Gemini result is tried whenever `summary` is still falsy (Python
`not summary`: `None` or `""`), and the fallback is used when `summary`
is still falsy at the end. -/
def chooseSummary (llm : LLMEnv) (fallback : String) : String :=
  let s1 : Option String := groqOutcome llm
  let s2 : Option String :=
    if s1 = none ∨ s1 = some "" then
      match geminiOutcome llm with
      | some t => some t
      | none => s1
    else s1
  match s2 with
  | none => fallback
  | some t => if t = "" then fallback else t

/-- The final word-count trim of `generate_summary`: when a target was
given and is nonzero (Python truthiness) and the summary is nonempty and
has more words than the target, keep the first `w` words joined by single
spaces and append `"..."`. -/
def trimSummary (summary_length_words : Option Nat) (summary : String) : String :=
  match summary_length_words with
  | none => summary
  | some w =>
    if w ≠ 0 ∧ summary ≠ "" then
      let words := pySplit summary
      if words.length > w then String.intercalate " " (words.take w) ++ "..."
      else summary
    else summary

/-- `VideoProcessor.generate_summary`: builds the fallback from the
transcription and the recovered scenes, picks the first usable provider
result (Groq, then Gemini, else the fallback), and trims to the target
word count. The prompt construction feeds only the provider calls, which
are modelled by their outcomes in `llm`. -/
def generate_summary (llm : LLMEnv) (audio_transcription : String)
    (visual_analysis : VisualAnalysis) (summary_length_words : Option Nat) : String :=
  let visual_scenes := visualScenes visual_analysis.frame_captions
  let fallback := fallbackSummary audio_transcription visual_scenes
  trimSummary summary_length_words (chooseSummary llm fallback)

/-! ## Pipeline (`VideoProcessor.process_video`) -/

/-- The `results` dict `process_video` returns on its success path. -/
structure PVResult where
  audio_transcription : String
  visual_analysis : VisualAnalysis
  final_summary : String
deriving DecidableEq, Repr

/-- Return value of `process_video`: `errDict m` is the
`{"error": m, "status": "error"}` dict returned (without raising) when no
frames were extracted; `ok r` is the completed results dict. -/
inductive PVOut where
  | errDict (msg : String)
  | ok (r : PVResult)
deriving DecidableEq, Repr

/-- The key-scene recovery of `process_video`'s non-LLM fallback branch:
for each of the first three caption records containing `": "`, the part
after the first `": "` cut at the first `" | "`, stripped. -/
def inlineKeyScenes (frame_captions : List String) : List String :=
  (frame_captions.take 3).filterMap (fun caption =>
    if containsSub ": " caption then
      some (pyStrip (beforeFirst " | " (afterFirst ": " caption)))
    else none)

/-- The summary built by `process_video` when `use_llm` is false or no
LLM client exists. -/
def inlineFallbackSummary (audio_transcription : String) (frame_captions : List String) : String :=
  let base := "This video presents content covering multiple aspects. "
  let base :=
    if audio_transcription ≠ "" ∧ ¬containsSub "No audio" audio_transcription then
      base ++ "Audio narration discusses: " ++ audio_transcription.take 200 ++ "... "
    else base
  let key_scenes := inlineKeyScenes frame_captions
  if key_scenes ≠ [] then
    base ++ "Visually shows: " ++ String.intercalate ", " key_scenes ++ "."
  else base

/-- `VideoProcessor.process_video`: `Except.error` is a propagated Python
exception (from `extract_keyframes`); `Except.ok` is the returned dict. -/
def process_video (v : Video) (audio : AudioEnv) (llm : LLMEnv)
    (num_frames : Nat) (use_llm : Bool) (summary_length_words : Option Nat) :
    Except String PVOut :=
  match extract_keyframes v num_frames with
  | Except.error e => Except.error e
  | Except.ok frames =>
    if frames = [] then Except.ok (PVOut.errDict "Could not extract frames from video")
    else
      let audio_data := extract_audio audio
      let audio_transcription :=
        match audio_data with
        | some _ => transcribe_audio audio_data audio.whisper
        | none => "No audio track found in video."
      let visual_analysis := analyze_visual_content frames
      let final_summary :=
        if use_llm ∧ (llm.groq ≠ none ∨ llm.gemini ≠ none) then
          generate_summary llm audio_transcription visual_analysis summary_length_words
        else
          inlineFallbackSummary audio_transcription visual_analysis.frame_captions
      Except.ok (PVOut.ok
        { audio_transcription := audio_transcription
          visual_analysis := visual_analysis
          final_summary := final_summary })

/-! ## Job worker and stores (`app.py`) -/

/-- The job's observable state across the three stores the worker
touches: the live-cache entry (`jobs[job_id]`), the durable `jobs` row,
and the media file on disk. The `db*` parameter fields and `dbCreatedAt`
are the columns the terminal `UPDATE` statements never mention. -/
structure JobState where
  cacheStatus : String
  cacheProgress : Int
  cacheStep : String
  cacheResult : Option PVOut
  dbStatus : String
  dbProgress : Int
  dbStep : String
  dbResult : Option PVOut
  dbVideoPath : String
  dbNumFrames : Nat
  dbSummaryStyle : String
  dbSummaryFormat : String
  dbSummaryLengthWords : Option Nat
  dbMetadata : List (String × String)
  dbCreatedAt : String
  fileExists : Bool
deriving DecidableEq, Repr

/-- `process_video_job`: the terminal transition applied to the job's
state, driven by the outcome of `process_video` (an `Except.error` is the
exception caught by the handler). On success: cache and durable row set
to `done`/100/`Complete`, the result stored, and the media file removed.
On failure: cache and durable row set to `failed` with the reason in the
step label; nothing else is touched. -/
def process_video_job (outcome : Except String PVOut) (st : JobState) : JobState :=
  match outcome with
  | Except.ok results =>
    { st with
      cacheStatus := "done", cacheProgress := 100, cacheStep := "Complete",
      cacheResult := some results,
      dbStatus := "done", dbProgress := 100, dbStep := "Complete",
      dbResult := some results,
      fileExists := false }
  | Except.error e =>
    { st with
      cacheStatus := "failed", cacheStep := "Error: " ++ e,
      dbStatus := "failed", dbStep := "Error: " ++ e }

/-- The durable `jobs` row columns read by `get_job_status`. -/
structure DbStatusRow where
  status : String
  progress : Int
  step : String
deriving DecidableEq, Repr

/-- The live-cache entry fields read by `get_job_status` (every entry is
created with all three keys, so the `dict.get` defaults never apply). -/
structure CacheEntry where
  status : String
  progress : Int
  step : String
deriving DecidableEq, Repr

/-- The JSON body of a successful `/videos/status/{job_id}` response. -/
structure StatusReport where
  status : String
  progress : Int
  step : String
  etaSeconds : Int
deriving DecidableEq, Repr

/-- `get_job_status`: `none` is the 404 (no durable row for this user and
id); otherwise the fields come from the live-cache entry when present,
else from the durable row, and the ETA is `(100 - progress) * 2` while
`processing` and `0` otherwise. -/
def get_job_status (db : Option DbStatusRow) (cache : Option CacheEntry) :
    Option StatusReport :=
  match db with
  | none => none
  | some row =>
    let status := match cache with | some j => j.status | none => row.status
    let progress := match cache with | some j => j.progress | none => row.progress
    let step := match cache with | some j => j.step | none => row.step
    let eta : Int := if status = "processing" then (100 - progress) * 2 else 0
    some { status := status, progress := progress, step := step, etaSeconds := eta }

/-! ## Upload (`upload_video`) -/

/-- The multipart form of `/videos/upload`: `filePresent` is
`'file' in request.files`, `filename` the upload's name, the parameter
fields are `none` when the form field is missing, and `metadata` is the
parse attempt on a present `metadata` field (`none` = field absent so
`'{}'` is parsed; `some none` = present but `json.loads` raised;
`some (some m)` = present and valid; a JSON object is an association
list). -/
structure UploadForm where
  filePresent : Bool
  filename : String
  num_frames : Option Nat
  summary_style : Option String
  summary_format : Option String
  summary_length_words : Option Nat
  metadata : Option (Option (List (String × String)))
deriving DecidableEq, Repr

/-- The job record `upload_video` creates (the fields written to both the
live cache and the durable row). -/
structure CreatedJob where
  status : String
  progress : Int
  step : String
  num_frames : Nat
  summary_style : String
  summary_format : String
  summary_length_words : Option Nat
  metadata : List (String × String)
deriving DecidableEq, Repr

/-- `upload_video`: 400 when no file part or an empty filename, else the
job is created with defaults for missing parameters and an empty metadata
object when the field is absent or not valid JSON, and 202 is returned. -/
def upload_video (form : UploadForm) : Except (Nat × String) (Nat × CreatedJob) :=
  if !form.filePresent then Except.error (400, "No file provided")
  else if form.filename = "" then Except.error (400, "No file selected")
  else
    let num_frames := form.num_frames.getD 10
    let summary_style := form.summary_style.getD "default"
    let summary_format := form.summary_format.getD "paragraph"
    let metadata :=
      match form.metadata with
      | none => ([] : List (String × String))
      | some parsed => parsed.getD []
    Except.ok (202,
      { status := "queued", progress := 0, step := "Queued",
        num_frames := num_frames, summary_style := summary_style,
        summary_format := summary_format,
        summary_length_words := form.summary_length_words,
        metadata := metadata })

/-! ## Result view (`get_job_result`) -/

/-- The `visualCaptions` array of `/videos/result/{job_id}`: entry `idx`
(0-based) of the stored caption records becomes frame number `idx + 1`
with the text after the first `": "` (the whole caption when `": "` does
not occur). -/
def visualCaptions (frame_captions : List String) : List (Nat × String) :=
  frame_captions.enum.map (fun p =>
    (p.1 + 1, if containsSub ": " p.2 then afterFirst ": " p.2 else p.2))

/-! ## Helper lemmas -/

theorem append_ne_empty_left (a b : String) (h : a ≠ "") : a ++ b ≠ "" := by
  intro he
  apply h
  have hd := congrArg String.data he
  rw [String.data_append] at hd
  exact String.ext (List.append_eq_nil.mp hd).1

theorem append_ne_empty_right (a b : String) (h : b ≠ "") : a ++ b ≠ "" := by
  intro he
  apply h
  have hd := congrArg String.data he
  rw [String.data_append] at hd
  exact String.ext (List.append_eq_nil.mp hd).2

theorem trimSummary_ne_empty (lw : Option Nat) (s : String) (h : s ≠ "") :
    trimSummary lw s ≠ "" := by
  cases lw with
  | none => exact h
  | some w =>
    simp only [trimSummary]
    split
    · split
      · exact append_ne_empty_right _ "..." (by decide)
      · exact h
    · exact h

theorem fallbackSummary_ne_empty (t : String) (scenes : List String) :
    fallbackSummary t scenes ≠ "" := by
  simp only [fallbackSummary]
  split
  · repeat' apply append_ne_empty_left
    decide
  · repeat' apply append_ne_empty_left
    decide

theorem inlineFallbackSummary_ne_empty (t : String) (fc : List String) :
    inlineFallbackSummary t fc ≠ "" := by
  simp only [inlineFallbackSummary]
  split
  · split
    · repeat' apply append_ne_empty_left
      decide
    · repeat' apply append_ne_empty_left
      decide
  · split
    · repeat' apply append_ne_empty_left
      decide
    · decide

/-! ## Claims -/

/-- C2: a status query with a durable row present takes status, progress
and step from the live-cache entry when it exists and exclusively from
the durable row when it does not; with the durable row at `done` and the
cache entry gone the report is `done` with `etaSeconds = 0`; and every
report whose status is not `processing` has `etaSeconds = 0`. -/
theorem C2_status_query_consistency (row : DbStatusRow) (cache : Option CacheEntry) :
    (∀ j, cache = some j →
      get_job_status (some row) cache =
        some { status := j.status, progress := j.progress, step := j.step,
               etaSeconds := if j.status = "processing" then (100 - j.progress) * 2 else 0 })
    ∧ (cache = none →
      get_job_status (some row) cache =
        some { status := row.status, progress := row.progress, step := row.step,
               etaSeconds := if row.status = "processing" then (100 - row.progress) * 2 else 0 })
    ∧ (row.status = "done" → cache = none →
      get_job_status (some row) cache =
        some { status := "done", progress := row.progress, step := row.step, etaSeconds := 0 })
    ∧ (∀ rep, get_job_status (some row) cache = some rep → rep.status ≠ "processing" →
      rep.etaSeconds = 0) := by
  refine ⟨?_, ?_, ?_, ?_⟩
  · rintro j rfl
    simp [get_job_status]
  · rintro rfl
    simp [get_job_status]
  · rintro hdone rfl
    simp [get_job_status, hdone]
  · intro rep hrep hst
    cases cache with
    | none =>
      simp only [get_job_status, Option.some.injEq] at hrep
      subst hrep
      simp_all [get_job_status]
    | some j =>
      simp only [get_job_status, Option.some.injEq] at hrep
      subst hrep
      simp_all [get_job_status]

/-- C2 witness: a `done` durable row with no cache entry reports `done`
with zero ETA. -/
theorem C2_status_query_consistency_witness :
    get_job_status (some { status := "done", progress := 100, step := "Complete" }) none =
      some { status := "done", progress := 100, step := "Complete", etaSeconds := 0 } := by
  exact ((C2_status_query_consistency { status := "done", progress := 100, step := "Complete" }
    none).2.2.1 rfl rfl)

/-- C7: the terminal transition of the worker deletes the media file on
`done` and leaves it alone on `failed`, and in both cases leaves every
stored parameter column and the created-at timestamp unchanged. -/
theorem C7_terminal_transition_file_effect (st : JobState) :
    (∀ r, (process_video_job (Except.ok r) st).fileExists = false
      ∧ (process_video_job (Except.ok r) st).dbStatus = "done"
      ∧ (process_video_job (Except.ok r) st).dbVideoPath = st.dbVideoPath
      ∧ (process_video_job (Except.ok r) st).dbNumFrames = st.dbNumFrames
      ∧ (process_video_job (Except.ok r) st).dbSummaryStyle = st.dbSummaryStyle
      ∧ (process_video_job (Except.ok r) st).dbSummaryFormat = st.dbSummaryFormat
      ∧ (process_video_job (Except.ok r) st).dbSummaryLengthWords = st.dbSummaryLengthWords
      ∧ (process_video_job (Except.ok r) st).dbMetadata = st.dbMetadata
      ∧ (process_video_job (Except.ok r) st).dbCreatedAt = st.dbCreatedAt)
    ∧ (∀ e, (process_video_job (Except.error e) st).fileExists = st.fileExists
      ∧ (process_video_job (Except.error e) st).dbStatus = "failed"
      ∧ (process_video_job (Except.error e) st).dbStep = "Error: " ++ e
      ∧ (process_video_job (Except.error e) st).dbVideoPath = st.dbVideoPath
      ∧ (process_video_job (Except.error e) st).dbNumFrames = st.dbNumFrames
      ∧ (process_video_job (Except.error e) st).dbSummaryStyle = st.dbSummaryStyle
      ∧ (process_video_job (Except.error e) st).dbSummaryFormat = st.dbSummaryFormat
      ∧ (process_video_job (Except.error e) st).dbSummaryLengthWords = st.dbSummaryLengthWords
      ∧ (process_video_job (Except.error e) st).dbMetadata = st.dbMetadata
      ∧ (process_video_job (Except.error e) st).dbCreatedAt = st.dbCreatedAt) := by
  constructor
  · intro r
    simp [process_video_job]
  · intro e
    simp [process_video_job]

/-- C9: with a file present under a nonempty name, the upload creates a
queued job at 202 where a missing `num_frames` defaults to 10, a missing
`summary_style` to `default`, a missing `summary_format` to `paragraph`,
and a `metadata` field that fails to parse yields an empty metadata
object. -/
theorem C9_upload_defaults (form : UploadForm)
    (hf : form.filePresent = true) (hn : form.filename ≠ "") :
    ∃ job, upload_video form = Except.ok (202, job)
      ∧ job.status = "queued"
      ∧ (form.num_frames = none → job.num_frames = 10)
      ∧ (form.summary_style = none → job.summary_style = "default")
      ∧ (form.summary_format = none → job.summary_format = "paragraph")
      ∧ (form.metadata = some none → job.metadata = []) := by
  refine ⟨{ status := "queued", progress := 0, step := "Queued",
            num_frames := form.num_frames.getD 10,
            summary_style := form.summary_style.getD "default",
            summary_format := form.summary_format.getD "paragraph",
            summary_length_words := form.summary_length_words,
            metadata := match form.metadata with
              | none => [] | some parsed => parsed.getD [] },
    ?_, rfl, ?_, ?_, ?_, ?_⟩
  · simp [upload_video, hf, hn]
  · intro h
    simp [h]
  · intro h
    simp [h]
  · intro h
    simp [h]
  · intro h
    simp [h]

/-- C9 witness: an upload with all parameter fields missing and an
invalid `metadata` field is accepted at 202 with the defaults. -/
theorem C9_upload_defaults_witness :
    ∃ job, upload_video
      { filePresent := true, filename := "clip.mp4", num_frames := none,
        summary_style := none, summary_format := none,
        summary_length_words := none, metadata := some none } =
      Except.ok (202, job)
      ∧ job.status = "queued" ∧ job.num_frames = 10 ∧ job.summary_style = "default"
      ∧ job.summary_format = "paragraph" ∧ job.metadata = [] := by
  obtain ⟨job, hj, hs, h10, hst, hfmt, hmeta⟩ :=
    C9_upload_defaults
      { filePresent := true, filename := "clip.mp4", num_frames := none,
        summary_style := none, summary_format := none,
        summary_length_words := none, metadata := some none } rfl (by decide)
  exact ⟨job, hj, hs, h10 rfl, hst rfl, hfmt rfl, hmeta rfl⟩

/-- A video that opens but has zero decodable frames. -/
def zeroFrameVideo : Video := { opened := true, frames := [] }

/-- A silent-audio environment for the zero-frame evaluation. -/
def c1Audio : AudioEnv :=
  { hasTrack := false, extractRaises := false, samples := [], whisper := none }

/-- Both LLM clients absent. -/
def noLLM : LLMEnv := { groq := none, gemini := none }

/-- The job state just before the terminal transition of the zero-frame
job (media file still on disk). -/
def c1State : JobState :=
  { cacheStatus := "processing", cacheProgress := 10, cacheStep := "Extracting frames",
    cacheResult := none,
    dbStatus := "queued", dbProgress := 0, dbStep := "Queued",
    dbResult := none,
    dbVideoPath := "./uploads/u_clip.mp4", dbNumFrames := 10,
    dbSummaryStyle := "default", dbSummaryFormat := "paragraph",
    dbSummaryLengthWords := none, dbMetadata := [],
    dbCreatedAt := "2026-10-12 00:00:00",
    fileExists := true }

/-- C1: evaluation at the failing input. A video that opens but yields
zero decodable frames makes `process_video` return the error dict
`{"error": ..., "status": "error"}` without raising, so the worker's
success path runs: the job is recorded `done` (step `Complete`, error
dict stored as the result, media file deleted) and is never `failed` —
contradicting the claim that such a job transitions to `failed` with the
reason in its step label. -/
theorem C1_zero_frames_job_marked_done :
    process_video zeroFrameVideo c1Audio noLLM 10 true none =
      Except.ok (PVOut.errDict "Could not extract frames from video")
    ∧ (process_video_job (process_video zeroFrameVideo c1Audio noLLM 10 true none)
        c1State).dbStatus = "done"
    ∧ (process_video_job (process_video zeroFrameVideo c1Audio noLLM 10 true none)
        c1State).dbStatus ≠ "failed"
    ∧ (process_video_job (process_video zeroFrameVideo c1Audio noLLM 10 true none)
        c1State).dbStep = "Complete"
    ∧ (process_video_job (process_video zeroFrameVideo c1Audio noLLM 10 true none)
        c1State).dbResult =
        some (PVOut.errDict "Could not extract frames from video") := by
  refine ⟨rfl, rfl, by decide, rfl, rfl⟩

/-- C5 counterexample: with a requested target of 0 words, a two-word
summary is returned unmodified (Python treats 0 as falsy and skips the
truncation), while the claim demands truncation to its first 0 words
plus the ellipsis marker. -/
theorem C5_target_zero_not_truncated :
    trimSummary (some 0) "a b" = "a b"
    ∧ (pySplit "a b").length > 0
    ∧ trimSummary (some 0) "a b" ≠
        String.intercalate " " ((pySplit "a b").take 0) ++ "..." := by
  refine ⟨rfl, by decide, by decide⟩

/-- C5 (amended): for a requested target of at least one word, a summary
with more words than the target is truncated to exactly the first `w`
words joined by single spaces plus the ellipsis marker; a summary with at
most `w` words, or one with no requested target, is returned unmodified
(a requested target of 0 is treated as no target). -/
theorem C5_truncation (s : String) (w : Nat) (hw : 1 ≤ w) :
    ((pySplit s).length > w →
      trimSummary (some w) s = String.intercalate " " ((pySplit s).take w) ++ "...")
    ∧ ((pySplit s).length ≤ w → trimSummary (some w) s = s)
    ∧ trimSummary none s = s := by
  refine ⟨?_, ?_, rfl⟩
  · intro h
    have hs : s ≠ "" := by
      intro he
      rw [he] at h
      simp [pySplit, pyWordsAux] at h
    simp only [trimSummary]
    rw [if_pos ⟨by omega, hs⟩, if_pos h]
  · intro h
    by_cases hs : s = ""
    · subst hs
      simp [trimSummary]
    · simp only [trimSummary]
      rw [if_pos ⟨by omega, hs⟩, if_neg (by omega)]

/-- C5 witness: a three-word summary with target 2 becomes its first two
words plus the marker; with target 5 it is unchanged. -/
theorem C5_truncation_witness :
    trimSummary (some 2) "alpha beta gamma" = "alpha beta..."
    ∧ trimSummary (some 5) "alpha beta gamma" = "alpha beta gamma" := by
  constructor
  · have h := (C5_truncation "alpha beta gamma" 2 (by decide)).1 (by decide)
    rw [h]
    decide
  · exact (C5_truncation "alpha beta gamma" 5 (by decide)).2.1 (by decide)

/-- C8 counterexample: a detection with confidence exactly 0.5 is
discarded by the code (which keeps only strictly greater confidences),
while the claim discards only detections strictly below 0.5 and keeps the
rest. -/
theorem C8_threshold_boundary :
    extract_text_from_frame
      { captionResult := some "a slide", ocrResult := some [{ text := "HELLO", conf := 1/2 }] }
      = []
    ∧ (([{ text := "HELLO", conf := (1/2 : ℚ) }] : List OcrDet).filter
        (fun d => decide (¬ d.conf < 1/2))).map (fun d => d.text) = ["HELLO"]
    ∧ ([] : List String) ≠ ["HELLO"] := by
  refine ⟨?_, ?_, by decide⟩
  · norm_num [extract_text_from_frame, List.filter]
  · norm_num [List.filter]

/-- C8 (amended): on-screen text extraction keeps exactly the detections
whose confidence is strictly above the fixed threshold 0.5 (discarding
those at or below it, in particular every one below it), in order, and
returns the empty collection when the OCR call fails; it never raises. -/
theorem C8_ocr_confidence_filter (f : Frame) :
    (∀ dets, f.ocrResult = some dets →
      extract_text_from_frame f =
        (dets.filter (fun d => decide (¬ d.conf ≤ 1/2))).map (fun d => d.text))
    ∧ (f.ocrResult = none → extract_text_from_frame f = []) := by
  constructor
  · intro dets hdets
    simp only [extract_text_from_frame, hdets]
    congr 1
    apply List.filter_congr
    intro d _
    simp [not_le, GT.gt]
  · intro h
    simp [extract_text_from_frame, h]

/-- C8 witness: a 0.9-confidence detection is kept, a 0.3-confidence one
discarded, and a raising OCR call yields the empty collection. -/
theorem C8_ocr_confidence_filter_witness :
    extract_text_from_frame
      { captionResult := some "a slide",
        ocrResult := some [{ text := "KEEP", conf := 9/10 }, { text := "DROP", conf := 3/10 }] }
      = ["KEEP"]
    ∧ extract_text_from_frame { captionResult := some "a slide", ocrResult := none } = [] := by
  constructor
  · have h := (C8_ocr_confidence_filter
      { captionResult := some "a slide",
        ocrResult := some [{ text := "KEEP", conf := 9/10 }, { text := "DROP", conf := 3/10 }] }).1
      [{ text := "KEEP", conf := 9/10 }, { text := "DROP", conf := 3/10 }] rfl
    rw [h]
    norm_num [List.filter]
  · exact (C8_ocr_confidence_filter
      { captionResult := some "a slide", ocrResult := none }).2 rfl

theorem filterMap_getElem_length (l : List Frame) (idxs : List Nat)
    (h : ∀ i ∈ idxs, i < l.length) :
    (idxs.filterMap (fun i => l[i]?)).length = idxs.length := by
  induction idxs with
  | nil => rfl
  | cons i idxs ih =>
    have hi : i < l.length := h i (List.mem_cons_self i idxs)
    have ha : l[i]? = some l[i] := List.getElem?_eq_getElem hi
    simp only [List.filterMap_cons, ha, List.length_cons]
    rw [ih (fun j hj => h j (List.mem_cons_of_mem i hj))]

theorem filterMap_getElem_get (l : List Frame) (idxs : List Nat)
    (h : ∀ i ∈ idxs, i < l.length) (k : Nat) :
    (idxs.filterMap (fun i => l[i]?))[k]? = (idxs[k]?).bind (fun i => l[i]?) := by
  induction idxs generalizing k with
  | nil => simp
  | cons i idxs ih =>
    have hi : i < l.length := h i (List.mem_cons_self i idxs)
    have ha : l[i]? = some l[i] := List.getElem?_eq_getElem hi
    cases k with
    | zero => simp [List.filterMap_cons, ha]
    | succ k =>
      simp only [List.filterMap_cons, ha, List.getElem?_cons_succ]
      rw [ih (fun j hj => h j (List.mem_cons_of_mem i hj))]

theorem range_filterMap_getElem (l : List Frame) :
    (List.range l.length).filterMap (fun i => l[i]?) = l := by
  induction l with
  | nil => rfl
  | cons a as ih =>
    rw [List.length_cons, List.range_succ_eq_map, List.filterMap_cons, List.filterMap_map]
    have hfun : (fun i => (a :: as)[i + 1]?) = (fun i => as[i]?) := by
      funext i
      simp
    simp only [List.getElem?_cons_zero, Function.comp_def, Nat.succ_eq_add_one, hfun, ih]

theorem sample_index_lt (T N i : Nat) (hN : 0 < N) (hT : N ≤ T) (hi : i < N) :
    i * T / N < T := by
  rw [Nat.div_lt_iff_lt_mul hN]
  have hT1 : 0 < T := Nat.lt_of_lt_of_le hN hT
  calc i * T < N * T := (Nat.mul_lt_mul_right hT1).mpr hi
  _ ≤ T * N := by rw [Nat.mul_comm]

theorem sample_index_strict_mono (T N a b : Nat) (hN : 0 < N) (hT : N ≤ T) (hab : a < b) :
    a * T / N < b * T / N := by
  have h1 : a * T / N + 1 = (a * T + N) / N := (Nat.add_div_right _ hN).symm
  have h2 : a * T + N ≤ b * T := by
    have : a * T + N ≤ a * T + T := by omega
    have h3 : a * T + T = (a + 1) * T := by ring
    have h4 : (a + 1) * T ≤ b * T := Nat.mul_le_mul_right T (by omega)
    omega
  have h5 : (a * T + N) / N ≤ b * T / N := Nat.div_le_div_right h2
  omega

theorem frameIndices_mem_lt (T N : Nat) (i : Nat) (hi : i ∈ frameIndices T N) : i < T := by
  unfold frameIndices at hi
  split at hi
  · exact List.mem_range.mp hi
  · rename_i hTN
    obtain ⟨j, hj, rfl⟩ := List.mem_map.mp hi
    have hjN : j < N := List.mem_range.mp hj
    exact sample_index_lt T N j (by omega) (by omega) hjN

theorem extract_keyframes_all (v : Video) (N : Nat) (hop : v.opened = true)
    (hTN : v.frames.length < N) : extract_keyframes v N = Except.ok v.frames := by
  simp only [extract_keyframes, hop, Bool.not_true, Bool.false_eq_true, if_false]
  rw [frameIndices, if_pos hTN, range_filterMap_getElem]

theorem extract_keyframes_sampled (v : Video) (N : Nat) (hop : v.opened = true)
    (hNT : N ≤ v.frames.length) :
    ∃ res, extract_keyframes v N = Except.ok res
      ∧ res.length = N
      ∧ (∀ k, k < N → res[k]? = v.frames[k * v.frames.length / N]?)
      ∧ (frameIndices v.frames.length N).Pairwise (· < ·) := by
  have hvalid : ∀ i ∈ frameIndices v.frames.length N, i < v.frames.length :=
    fun i hi => frameIndices_mem_lt _ _ i hi
  have hidx : frameIndices v.frames.length N =
      (List.range N).map (fun i => i * v.frames.length / N) := by
    rw [frameIndices, if_neg (by omega)]
  refine ⟨(frameIndices v.frames.length N).filterMap (fun i => v.frames[i]?), ?_, ?_, ?_, ?_⟩
  · simp only [extract_keyframes, hop, Bool.not_true, Bool.false_eq_true, if_false]
  · rw [filterMap_getElem_length _ _ hvalid, hidx, List.length_map, List.length_range]
  · intro k hk
    rw [filterMap_getElem_get _ _ hvalid k, hidx]
    have : ((List.range N).map (fun i => i * v.frames.length / N))[k]? =
        some (k * v.frames.length / N) := by
      rw [List.getElem?_map, List.getElem?_range hk]
      rfl
    rw [this]
    rfl
  · rw [hidx]
    by_cases hN : N = 0
    · subst hN
      simp
    · refine List.Pairwise.map _ ?_ (List.pairwise_lt_range N)
      intro a b hab
      exact sample_index_strict_mono v.frames.length N a b (by omega) hNT hab

theorem extract_keyframes_nonempty (v : Video) (N : Nat) (hop : v.opened = true)
    (hne : v.frames ≠ []) (hN : 1 ≤ N) :
    ∃ fs, extract_keyframes v N = Except.ok fs ∧ fs ≠ [] := by
  by_cases h : v.frames.length < N
  · exact ⟨v.frames, extract_keyframes_all v N hop h, hne⟩
  · obtain ⟨res, hres, hlen, _, _⟩ := extract_keyframes_sampled v N hop (by omega)
    refine ⟨res, hres, ?_⟩
    intro he
    rw [he] at hlen
    simp at hlen
    omega

/-- C4: with the file open, a video of `T` frames and a requested count
`N` with `T ≥ N` yields a list of exactly `N` frames in which entry `k`
is the frame at position `⌊k·T/N⌋`, and the chosen positions are strictly
increasing (in order, no duplicates); with `T < N` every frame is
returned in original order, with no duplication and no error. -/
theorem C4_even_frame_sampling (v : Video) (N : Nat) (hop : v.opened = true) :
    (v.frames.length < N → extract_keyframes v N = Except.ok v.frames)
    ∧ (N ≤ v.frames.length →
      ∃ res, extract_keyframes v N = Except.ok res
        ∧ res.length = N
        ∧ (∀ k, k < N → res[k]? = v.frames[k * v.frames.length / N]?)
        ∧ (frameIndices v.frames.length N).Pairwise (· < ·)) :=
  ⟨fun h => extract_keyframes_all v N hop h,
   fun h => extract_keyframes_sampled v N hop h⟩

/-- C4 witness: a 7-frame video sampled at 3 yields frames 0, 2, 4; a
2-frame video sampled at 10 yields both frames in order. -/
theorem C4_even_frame_sampling_witness :
    (∃ res, extract_keyframes
        { opened := true,
          frames := [{ captionResult := some "f0", ocrResult := some [] },
                     { captionResult := some "f1", ocrResult := some [] },
                     { captionResult := some "f2", ocrResult := some [] },
                     { captionResult := some "f3", ocrResult := some [] },
                     { captionResult := some "f4", ocrResult := some [] },
                     { captionResult := some "f5", ocrResult := some [] },
                     { captionResult := some "f6", ocrResult := some [] }] } 3 = Except.ok res
      ∧ res.length = 3)
    ∧ extract_keyframes
        { opened := true,
          frames := [{ captionResult := some "f0", ocrResult := some [] },
                     { captionResult := some "f1", ocrResult := some [] }] } 10 =
      Except.ok [{ captionResult := some "f0", ocrResult := some [] },
                 { captionResult := some "f1", ocrResult := some [] }] := by
  constructor
  · obtain ⟨res, hres, hlen, _, _⟩ :=
      (C4_even_frame_sampling
        { opened := true,
          frames := [{ captionResult := some "f0", ocrResult := some [] },
                     { captionResult := some "f1", ocrResult := some [] },
                     { captionResult := some "f2", ocrResult := some [] },
                     { captionResult := some "f3", ocrResult := some [] },
                     { captionResult := some "f4", ocrResult := some [] },
                     { captionResult := some "f5", ocrResult := some [] },
                     { captionResult := some "f6", ocrResult := some [] }] } 3 rfl).2 (by decide)
    exact ⟨res, hres, hlen⟩
  · exact (C4_even_frame_sampling
      { opened := true,
        frames := [{ captionResult := some "f0", ocrResult := some [] },
                   { captionResult := some "f1", ocrResult := some [] }] } 10 rfl).1 (by decide)

/-- C6: a decodable video with no audio track — or one whose audio
extraction raises — completes the pipeline (no failure) with the fixed
"no audio" placeholder as its transcription, and the three degradation
placeholders of `transcribe_audio` (empty audio, blank transcription,
raising transcription call) are produced in exactly those cases and are
pairwise distinct fixed texts. -/
theorem C6_no_audio_placeholder (v : Video) (a : AudioEnv) (llm : LLMEnv)
    (N : Nat) (use_llm : Bool) (lw : Option Nat)
    (hop : v.opened = true) (hne : v.frames ≠ []) (hN : 1 ≤ N)
    (haud : a.hasTrack = false ∨ a.extractRaises = true) :
    (∃ r, process_video v a llm N use_llm lw = Except.ok (PVOut.ok r)
      ∧ r.audio_transcription = "No audio track found in video.")
    ∧ (∀ w samples t, transcribe_audio (some []) w = "No audio content detected."
      ∧ (samples ≠ [] → transcribe_audio (some samples) none = "Audio transcription failed.")
      ∧ (samples ≠ [] → pyStrip t = "" →
          transcribe_audio (some samples) (some t) = "No speech detected in audio."))
    ∧ ("No audio content detected." ≠ "No speech detected in audio."
      ∧ "No audio content detected." ≠ "Audio transcription failed."
      ∧ "No speech detected in audio." ≠ "Audio transcription failed.") := by
  refine ⟨?_, ?_, by decide, by decide, by decide⟩
  · have haud' : extract_audio a = none := by
      rcases haud with h | h <;> simp [extract_audio, h]
    obtain ⟨fs, hfs, hfsne⟩ := extract_keyframes_nonempty v N hop hne hN
    refine ⟨{ audio_transcription := "No audio track found in video.",
              visual_analysis := analyze_visual_content fs,
              final_summary :=
                if use_llm ∧ (llm.groq ≠ none ∨ llm.gemini ≠ none) then
                  generate_summary llm "No audio track found in video."
                    (analyze_visual_content fs) lw
                else
                  inlineFallbackSummary "No audio track found in video."
                    (analyze_visual_content fs).frame_captions }, ?_, rfl⟩
    simp only [process_video, hfs, haud', if_neg hfsne]
  · intro w samples t
    refine ⟨rfl, ?_, ?_⟩
    · intro hs
      simp only [transcribe_audio]
      rw [if_neg (by simpa using List.length_pos.mpr hs |>.ne')]
    · intro hs ht
      simp only [transcribe_audio]
      rw [if_neg (by simpa using List.length_pos.mpr hs |>.ne')]
      simp [ht]

/-- C6 witness: a one-frame video with no audio track completes and
reports the "no audio" placeholder. -/
theorem C6_no_audio_placeholder_witness :
    ∃ r, process_video
        { opened := true, frames := [{ captionResult := some "a dog", ocrResult := some [] }] }
        { hasTrack := false, extractRaises := false, samples := [], whisper := none }
        { groq := none, gemini := none } 10 true none = Except.ok (PVOut.ok r)
      ∧ r.audio_transcription = "No audio track found in video." := by
  obtain ⟨⟨r, hr, ha⟩, _, _⟩ :=
    C6_no_audio_placeholder
      { opened := true, frames := [{ captionResult := some "a dog", ocrResult := some [] }] }
      { hasTrack := false, extractRaises := false, samples := [], whisper := none }
      { groq := none, gemini := none } 10 true none rfl (by decide) (by decide) (Or.inl rfl)
  exact ⟨r, hr, ha⟩

theorem chooseSummary_groq (llm : LLMEnv) (fb s : String)
    (hs : groqOutcome llm = some s) (hne : s ≠ "") : chooseSummary llm fb = s := by
  simp only [chooseSummary, hs]
  rw [if_neg (by simp [hne])]
  simp [hne]

theorem chooseSummary_gemini (llm : LLMEnv) (fb s : String)
    (hg : groqOutcome llm = none ∨ groqOutcome llm = some "")
    (hs : geminiOutcome llm = some s) (hne : s ≠ "") : chooseSummary llm fb = s := by
  simp only [chooseSummary, hs]
  rw [if_pos (by rcases hg with h | h <;> simp [h])]
  simp [hne]

theorem chooseSummary_fallback (llm : LLMEnv) (fb : String)
    (hg : groqOutcome llm = none ∨ groqOutcome llm = some "")
    (hgem : geminiOutcome llm = none ∨ geminiOutcome llm = some "") :
    chooseSummary llm fb = fb := by
  simp only [chooseSummary]
  rw [if_pos (by rcases hg with h | h <;> simp [h])]
  rcases hgem with h | h <;> rcases hg with h2 | h2 <;> simp [h, h2]

theorem chooseSummary_ne_empty (llm : LLMEnv) (fb : String) (hfb : fb ≠ "") :
    chooseSummary llm fb ≠ "" := by
  simp only [chooseSummary]
  split
  · exact hfb
  · split
    · exact hfb
    · assumption

/-- C3: summary generation is total (never raises) and returns a
non-empty string: providers are tried Groq first then Gemini, the first
outcome that is non-empty and did not raise is used (then trimmed to the
target length), and when both are unavailable, raise, or return empty
text, the deterministic fallback built from the transcription prefix and
the first scenes is used; on the pipeline's success path the final
summary is likewise non-empty. -/
theorem C3_summary_fallback_chain (llm : LLMEnv) (t : String)
    (va : VisualAnalysis) (lw : Option Nat) :
    (∀ s, groqOutcome llm = some s → s ≠ "" →
      generate_summary llm t va lw = trimSummary lw s)
    ∧ (∀ s, (groqOutcome llm = none ∨ groqOutcome llm = some "") →
      geminiOutcome llm = some s → s ≠ "" →
      generate_summary llm t va lw = trimSummary lw s)
    ∧ ((groqOutcome llm = none ∨ groqOutcome llm = some "") →
      (geminiOutcome llm = none ∨ geminiOutcome llm = some "") →
      generate_summary llm t va lw =
        trimSummary lw (fallbackSummary t (visualScenes va.frame_captions)))
    ∧ generate_summary llm t va lw ≠ ""
    ∧ (∀ v a N use_llm r,
        process_video v a llm N use_llm lw = Except.ok (PVOut.ok r) →
        r.final_summary ≠ "") := by
  refine ⟨?_, ?_, ?_, ?_, ?_⟩
  · intro s hs hne
    simp only [generate_summary]
    rw [chooseSummary_groq llm _ s hs hne]
  · intro s hg hs hne
    simp only [generate_summary]
    rw [chooseSummary_gemini llm _ s hg hs hne]
  · intro hg hgem
    simp only [generate_summary]
    rw [chooseSummary_fallback llm _ hg hgem]
  · exact trimSummary_ne_empty lw _
      (chooseSummary_ne_empty llm _ (fallbackSummary_ne_empty t _))
  · intro v a N use_llm r hr
    simp only [process_video] at hr
    cases hek : extract_keyframes v N with
    | error e =>
      rw [hek] at hr
      simp at hr
    | ok frames =>
      rw [hek] at hr
      by_cases hf : frames = []
      · simp [hf] at hr
      · simp only [hf, if_false, Except.ok.injEq, PVOut.ok.injEq] at hr
        subst hr
        dsimp only
        split
        · exact trimSummary_ne_empty lw _
            (chooseSummary_ne_empty llm _ (fallbackSummary_ne_empty _ _))
        · exact inlineFallbackSummary_ne_empty _ _

set_option maxRecDepth 4000 in
/-- C3 witness: a successful Groq call is used as-is; with both providers
absent the deterministic fallback is returned and is non-empty. -/
theorem C3_summary_fallback_chain_witness :
    generate_summary { groq := some (some "A fine video about dogs."), gemini := none }
      "talk" { frame_captions := ["Frame 1: a dog"], ocr_texts := [], visual_summary := "Frame 1: a dog" }
      none = "A fine video about dogs."
    ∧ generate_summary { groq := none, gemini := none }
      "talk" { frame_captions := ["Frame 1: a dog"], ocr_texts := [], visual_summary := "Frame 1: a dog" }
      none = "This video contains: talk. Key scenes include: a dog." := by
  constructor
  · have h := (C3_summary_fallback_chain
      { groq := some (some "A fine video about dogs."), gemini := none } "talk"
      { frame_captions := ["Frame 1: a dog"], ocr_texts := [], visual_summary := "Frame 1: a dog" }
      none).1 "A fine video about dogs." rfl (by decide)
    exact h
  · have h := (C3_summary_fallback_chain
      { groq := none, gemini := none } "talk"
      { frame_captions := ["Frame 1: a dog"], ocr_texts := [], visual_summary := "Frame 1: a dog" }
      none).2.2.1 (Or.inl rfl) (Or.inl rfl)
    rw [h]
    decide

theorem digitChar_ne_colon (d : Nat) (hd : d < 10) : digitChar d ≠ ':' := by
  interval_cases d <;> decide

theorem natToDigitsCore_no_colon (fuel n : Nat) : ':' ∉ natToDigitsCore fuel n := by
  induction fuel generalizing n with
  | zero => simp [natToDigitsCore]
  | succ fuel ih =>
    simp only [natToDigitsCore]
    split
    · rename_i hn
      intro h
      rcases List.mem_singleton.mp h with h
      exact digitChar_ne_colon n hn h.symm
    · intro h
      rcases List.mem_append.mp h with h | h
      · exact ih (n / 10) h
      · rcases List.mem_singleton.mp h with h
        exact digitChar_ne_colon (n % 10) (Nat.mod_lt n (by omega)) h.symm

theorem natToDigits_no_colon (n : Nat) : ':' ∉ natToDigits n :=
  natToDigitsCore_no_colon (n + 1) n

theorem splitFirstAux_label (p rest : List Char) (hp : ':' ∉ p) :
    splitFirstAux [':', ' '] (p ++ ':' :: ' ' :: rest) = some (p, rest) := by
  induction p with
  | nil =>
    simp [splitFirstAux, List.isPrefixOf]
  | cons c p ih =>
    have hc : c ≠ ':' := fun h => hp (h ▸ List.mem_cons_self c p)
    have hp2 : ':' ∉ p := fun h => hp (List.mem_cons_of_mem c h)
    have hbeq : (':' == c) = false := by
      rw [beq_eq_false_iff_ne]
      exact fun h => hc h.symm
    have hpre : ([':', ' '].isPrefixOf (c :: (p ++ ':' :: ' ' :: rest))) = false := by
      simp [List.isPrefixOf, hbeq]
    rw [List.cons_append, splitFirstAux, hpre]
    simp only [Bool.false_eq_true, if_false]
    rw [ih hp2]

/-- The caption suffix appended during visual analysis when the frame had
on-screen text. -/
def ocrSuffix (f : Frame) : String :=
  if extract_text_from_frame f ≠ [] then
    " | On-screen text: " ++ String.intercalate ", " (extract_text_from_frame f)
  else ""

theorem frame_label_data (n : Nat) (c : String) :
    ("Frame " ++ natRepr n ++ ": " ++ c).toList =
      ("Frame ".toList ++ natToDigits n) ++ ':' :: ' ' :: c.toList := by
  show ("Frame " ++ natRepr n ++ ": " ++ c).data =
    ("Frame ".data ++ natToDigits n) ++ ':' :: ' ' :: c.data
  simp only [String.data_append, natRepr, List.asString, List.append_assoc]
  rfl

theorem strip_frame_label (n : Nat) (c : String) :
    containsSub ": " ("Frame " ++ natRepr n ++ ": " ++ c) = true
    ∧ afterFirst ": " ("Frame " ++ natRepr n ++ ": " ++ c) = c := by
  have hp : ':' ∉ ("Frame ".toList ++ natToDigits n) := by
    intro h
    rcases List.mem_append.mp h with h | h
    · revert h
      decide
    · exact natToDigits_no_colon n h
  have hsplit : splitFirstAux ": ".toList ("Frame " ++ natRepr n ++ ": " ++ c).toList =
      some ("Frame ".toList ++ natToDigits n, c.toList) := by
    rw [frame_label_data]
    exact splitFirstAux_label _ _ hp
  refine ⟨?_, ?_⟩
  · simp only [containsSub]
    rw [hsplit]
    rfl
  · simp only [afterFirst]
    rw [hsplit]
    rfl

theorem frameCaptionEntry_split (i : Nat) (f : Frame) :
    frameCaptionEntry i f =
      "Frame " ++ natRepr (i + 1) ++ ": " ++ (caption_frame f ++ ocrSuffix f) := by
  simp only [frameCaptionEntry, ocrSuffix]
  split
  · simp only [String.append_assoc]
  · simp only [String.append_empty, String.append_assoc]

/-- C10: for every frame list, the per-frame captions returned by the
result view are numbered sequentially from 1, each caption is the stored
record with exactly the leading `Frame k: ` label stripped (the text up
to the first `": "`), and when the frame had on-screen text the returned
caption still carries the ` | On-screen text: ...` suffix produced during
visual analysis. -/
theorem C10_result_caption_view (frames : List Frame) :
    visualCaptions ((analyze_visual_content frames).frame_captions) =
      frames.enum.map (fun p => (p.1 + 1, caption_frame p.2 ++ ocrSuffix p.2)) := by
  apply List.ext_getElem?
  intro k
  cases hk : frames[k]? with
  | none =>
    simp [visualCaptions, analyze_visual_content, List.getElem?_map, List.getElem?_enum, hk]
  | some f =>
    have h1 := strip_frame_label (k + 1) (caption_frame f ++ ocrSuffix f)
    simp [visualCaptions, analyze_visual_content, List.getElem?_map, List.getElem?_enum, hk,
      frameCaptionEntry_split, h1.1, h1.2]

end VideoWise
